import Mathlib

/-!
Verification of the ccp-project/bbr flow controller (`src/src/lib.rs`) against
its natural-language specification.

Shallow embedding conventions:
* Rust `f64` values are modelled as exact rationals (`ℚ`); the Rust saturating
  cast `as u32` is `f64ToU32` below (negative goes to 0, values above
  `2^32 - 1` saturate, otherwise truncation toward zero).
* `u64 as u32` is reduction mod `2^32` (`u64ToU32`).
* `time::Timespec` instants and `time::Duration` are modelled as integers on a
  monotonic clock; `time::now()` is the single instant `Env.now` for the whole
  handler invocation.
* Calls to the external runtime (`update_field` / `set_program`) are recorded
  as an event trace.  The runtime's behaviour is an oracle in `Env`:
  `updateFails` says whether a given `update_field` call returns a transport
  error, `installFails` whether `set_program` of a given program does, and
  `newUid` is the fresh `program_uid` a successful install returns.
* A Rust panic (`unwrap` / `expect` failing) is the `Outcome.panic`
  constructor, carrying the state and the calls issued before the panic.
* `info!`-level logging is not modelled; the `warn!` log emitted by
  `Bbr::install_update` when `update_field` fails is recorded as an
  `Event.log` entry, since the error-handling behaviour depends on it.
* The bodies of the blocks of `on_report` are split into named helper
  definitions (`probe_bw_minrtt_update`, `probe_bw_rate_update`,
  `probe_bw_tail`), each annotated with the source lines it embeds.
-/

/-- Mode of the controller state machine (`enum BbrMode`, src/src/lib.rs:73). -/
inductive BbrMode where
  | ProbeBw
  | ProbeRtt
deriving DecidableEq, Repr

/-- Flow state (`struct Bbr`, src/src/lib.rs:58).  The `control_channel` and
`logger` handles are external collaborators and are represented by the `Env`
oracle instead of state fields; `sc` is represented by its `program_uid`. -/
structure Bbr where
  sc_uid : Nat
  probe_rtt_interval : Int
  bottle_rate : ℚ
  bottle_rate_timeout : Int
  min_rtt_us : Nat
  min_rtt_timeout : Int
  curr_mode : BbrMode
  mss : Nat
  init : Bool
  start : Int
deriving DecidableEq, Repr

/-- An incoming report (`portus::Report`).  `get_field` lookups that can be
absent are `Option`s; the numeric payload of a field is a `u64`. -/
structure Report where
  program_uid : Nat
  minrtt : Option Nat
  loss : Option Nat
  rate : Option Nat
  pulseState : Option Nat
deriving DecidableEq, Repr

/-- One observable interaction with the external runtime or the log sink. -/
inductive Event where
  | update (fields : List (String × Nat))
  | install (prog : String) (fields : List (String × Nat))
  | log (msg : String)
deriving DecidableEq, Repr

/-- Oracle for the external world during one handler invocation. -/
structure Env where
  now : Int
  updateFails : List (String × Nat) → Bool
  installFails : String → Bool
  newUid : String → Nat

/-- Result of a handler invocation: either a normal return with the new state
and the event trace, or a Rust panic (with the state and events up to it). -/
inductive Outcome where
  | ok (s : Bbr) (events : List Event)
  | panic (s : Bbr) (events : List Event)
deriving DecidableEq, Repr

def Outcome.state : Outcome → Bbr
  | .ok s _ => s
  | .panic s _ => s

def Outcome.events : Outcome → List Event
  | .ok _ tr => tr
  | .panic _ tr => tr

def Outcome.isPanic : Outcome → Bool
  | .ok _ _ => false
  | .panic _ _ => true

/-- The runtime calls in a trace, discarding log entries. -/
def callsOnly (tr : List Event) : List Event :=
  tr.filter fun ev => match ev with
    | .log _ => false
    | _ => true

/-- Rust saturating cast `(x : f64) as u32`: NaN/negative to 0, truncation
toward zero, saturation at `u32::MAX`. -/
def f64ToU32 (q : ℚ) : Nat :=
  if q < 0 then 0 else min q.floor.toNat (2 ^ 32 - 1)

/-- Rust wrapping cast `(x : u64) as u32`. -/
def u64ToU32 (n : Nat) : Nat := n % 2 ^ 32

/-- `Bbr::install_update` (src/src/lib.rs:89-97): issue one `update_field`
call; when it returns a transport error, only a `warn!` log happens — the
error has no other effect. -/
def install_update (e : Env) (upd : List (String × Nat)) : List Event :=
  if e.updateFails upd then [Event.update upd, Event.log "Cwnd and rate update error"]
  else [Event.update upd]

/-- `Bbr::replace_probe_bw_rate` (src/src/lib.rs:100-119): push the four
pacing constants recomputed from the current `bottle_rate` and `min_rtt_us`. -/
def replace_probe_bw_rate (e : Env) (s : Bbr) : List Event :=
  let three_fourths_rate := f64ToU32 (s.bottle_rate * 0.75)
  let rate := f64ToU32 s.bottle_rate
  let five_fourths_rate := f64ToU32 (s.bottle_rate * 1.25)
  let cwnd_cap := f64ToU32 (s.bottle_rate * 2.0 * (s.min_rtt_us : ℚ) / 1e6)
  install_update e [("bottleRate", rate), ("threeFourthsRate", three_fourths_rate),
                    ("fiveFourthsRate", five_fourths_rate), ("cwndCap", cwnd_cap)]

/-- `Bbr::install_probe_bw` (src/src/lib.rs:121-151): push `Cwnd`/`Rate`,
then `set_program("probe_bw", …)`.  The result of `set_program` is
`.unwrap()`ed in the source, so a transport error there is a panic: the
returned option is `none` exactly in that case, otherwise it is the fresh
`program_uid` of the new scope. -/
def install_probe_bw (e : Env) (s : Bbr) : List Event × Option Nat :=
  let three_fourths_rate := f64ToU32 (s.bottle_rate * 0.75)
  let rate := f64ToU32 s.bottle_rate
  let five_fourths_rate := f64ToU32 (s.bottle_rate * 1.25)
  let cwnd_cap := f64ToU32 (s.bottle_rate * 2.0 * (s.min_rtt_us : ℚ) / 1e6)
  let tr := install_update e [("Cwnd", cwnd_cap), ("Rate", five_fourths_rate)]
  (tr ++ [Event.install "probe_bw"
      [("cwndCap", cwnd_cap), ("bottleRate", rate),
       ("threeFourthsRate", three_fourths_rate), ("fiveFourthsRate", five_fourths_rate)]],
   if e.installFails "probe_bw" then none else some (e.newUid "probe_bw"))

/-- `Bbr::get_probe_bw_fields` (src/src/lib.rs:153-167): decode
`(loss, rtt, rate, state)`; each `.expect` on an absent field is a panic,
modelled as `none`. -/
def get_probe_bw_fields (m : Report) : Option (Nat × Nat × ℚ × Nat) :=
  match m.minrtt, m.loss, m.rate, m.pulseState with
  | some mr, some l, some r, some st =>
      some (u64ToU32 l, u64ToU32 mr, (r : ℚ), u64ToU32 st)
  | _, _, _, _ => none

/-- `Bbr::get_probe_minrtt` (src/src/lib.rs:169-172): decode `Report.minrtt`;
`.expect` on an absent field is a panic, modelled as `none`. -/
def get_probe_minrtt (m : Report) : Option Nat :=
  m.minrtt.map u64ToU32

/-- The new-minimum-RTT block of `on_report` in `ProbeBw` mode
(src/src/lib.rs:360-381): when the sampled min-RTT is below the current
estimate, adopt it, extend `min_rtt_timeout`, and — once the first
`probe_bw` install has happened (`!init`) — push the recomputed `cwndCap`. -/
def probe_bw_minrtt_update (e : Env) (s : Bbr) (minrtt : Nat) : Bbr × List Event :=
  if minrtt < s.min_rtt_us then
    let s1 : Bbr := { s with min_rtt_us := minrtt,
                             min_rtt_timeout := e.now + s.probe_rtt_interval }
    if !s1.init then
      (s1, install_update e
        [("cwndCap", f64ToU32 (s1.bottle_rate * 2.0 * (s1.min_rtt_us : ℚ) / 1e6))])
    else (s1, [])
  else (s, [])

/-- The rate-adoption block of `on_report` in `ProbeBw` mode
(src/src/lib.rs:398-406): when the reported rate exceeds `bottle_rate`,
adopt it, extend `bottle_rate_timeout`, and — once the first `probe_bw`
install has happened (`!init`) — push the four recomputed pacing constants. -/
def probe_bw_rate_update (e : Env) (s1 : Bbr) (rate : ℚ) : Bbr × List Event :=
  if s1.bottle_rate < rate then
    let s2 : Bbr := { s1 with bottle_rate := rate,
                              bottle_rate_timeout := e.now + s1.probe_rtt_interval }
    if !s2.init then (s2, replace_probe_bw_rate e s2)
    else (s2, [])
  else (s1, [])

/-- The remainder of the `ProbeBw` arm of `on_report` after field decoding
and the min-RTT block (src/src/lib.rs:383-415): the `min_rtt_timeout` check
with its early return into `ProbeRtt`, then rate adoption, then the one-shot
first `probe_bw` install.  `s1`/`tr1` are the state and events produced by
the min-RTT block, `rate` the decoded rate field. -/
def probe_bw_tail (e : Env) (s1 : Bbr) (tr1 : List Event) (rate : ℚ) : Outcome :=
  if e.now > s1.min_rtt_timeout then
    let s2 : Bbr := { s1 with curr_mode := .ProbeRtt, min_rtt_us := 0x3fffffff }
    if e.installFails "probe_rtt" then
      .panic s2 (tr1 ++ [Event.install "probe_rtt" []])
    else
      let s3 : Bbr := { s2 with sc_uid := e.newUid "probe_rtt" }
      .ok s3 (tr1 ++ [Event.install "probe_rtt" []]
                 ++ install_update e [("Cwnd", (4 * s3.mss) % 2 ^ 32)])
  else
    let p2 := probe_bw_rate_update e s1 rate
    let s2 := p2.1
    let tr2 := p2.2
    if s2.init then
      let p3 := install_probe_bw e s2
      match p3.2 with
      | none => .panic s2 (tr1 ++ tr2 ++ p3.1)
      | some uid => .ok { s2 with sc_uid := uid, init := false } (tr1 ++ tr2 ++ p3.1)
    else .ok s2 (tr1 ++ tr2)

/-- `<Bbr as portus::Flow>::on_report` (src/src/lib.rs:324-417). -/
def on_report (e : Env) (s : Bbr) (m : Report) : Outcome :=
  if s.sc_uid ≠ m.program_uid then .ok s []
  else
    match s.curr_mode with
    | .ProbeRtt =>
      match get_probe_minrtt m with
      | none => .panic s []
      | some mr =>
        let s1 : Bbr := { s with min_rtt_us := mr,
                                 min_rtt_timeout := e.now + s.probe_rtt_interval }
        let p := install_probe_bw e s1
        match p.2 with
        | none => .panic s1 p.1
        | some uid => .ok { s1 with sc_uid := uid, curr_mode := .ProbeBw } p.1
    | .ProbeBw =>
      match get_probe_bw_fields m with
      | none => .panic s []
      | some (_loss, minrtt, rate, _state) =>
        let p1 := probe_bw_minrtt_update e s minrtt
        probe_bw_tail e p1.1 p1.2 rate

/-- Creation inputs (`portus::DatapathInfo`), restricted to the fields read. -/
structure DatapathInfo where
  mss : Nat
  init_cwnd : Nat

/-- `BbrConfig` (src/src/lib.rs:82), restricted to the fields the controller
reads. -/
structure BbrConfig where
  probe_rtt_interval : Int

/-- `<BbrConfig as CongAlg>::new_flow` (src/src/lib.rs:299-320): build the
initial state and install `init_program`; the `set_program` result is
`.unwrap()`ed, so a transport error there is a panic (`none`). -/
def new_flow (cfg : BbrConfig) (e : Env) (info : DatapathInfo) :
    Option (Bbr × List Event) :=
  let s : Bbr := {
    sc_uid := 0,
    probe_rtt_interval := cfg.probe_rtt_interval,
    bottle_rate := 125000,
    bottle_rate_timeout := e.now + cfg.probe_rtt_interval,
    min_rtt_us := 1000000,
    min_rtt_timeout := e.now + cfg.probe_rtt_interval,
    curr_mode := .ProbeBw,
    mss := info.mss,
    init := true,
    start := e.now }
  if e.installFails "init_program" then none
  else some ({ s with sc_uid := e.newUid "init_program" },
             [Event.install "init_program" [("Cwnd", info.init_cwnd)]])

/-- One measurement tick's inputs for the `probe_rtt` datapath program. -/
structure RttTick where
  micros : Nat
  rtt_sample_us : Nat
  packets_in_flight : Nat
deriving DecidableEq, Repr

/-- One evaluation tick of the `probe_rtt` datapath program
(src/src/lib.rs:243-254).  The first clause (`when true`) folds the RTT
sample into `Report.minrtt` and falls through; the second clause emits the
report when `Micros > 200000` and `packets_in_flight < 4 || = 4`.  Returns
the new `Report.minrtt` and whether a report is emitted this tick. -/
def probe_rtt_tick (minrtt : Nat) (t : RttTick) : Nat × Bool :=
  (min minrtt t.rtt_sample_us,
   decide (200000 < t.micros ∧ (t.packets_in_flight < 4 ∨ t.packets_in_flight = 4)))

/-- Whether the `probe_rtt` program emits a report at tick `i` of a trace. -/
def reportsAt (tr : List RttTick) (i : Nat) : Bool :=
  match tr[i]? with
  | some t => (probe_rtt_tick 0 t).2
  | none => false

/-- Erase the `bottle_rate_timeout` field, to state that no operation ever
reads it. -/
def eraseBrt (s : Bbr) : Bbr := { s with bottle_rate_timeout := 0 }

/-- Erase `bottle_rate_timeout` in the state of an outcome. -/
def eraseBrtOutcome : Outcome → Outcome
  | .ok s tr => .ok (eraseBrt s) tr
  | .panic s tr => .panic (eraseBrt s) tr

/-! Concrete sample inputs used by witnesses and counterexamples. -/

def env0 : Env :=
  { now := 0, updateFails := fun _ => false, installFails := fun _ => false,
    newUid := fun _ => 42 }

def envDown : Env :=
  { now := 0, updateFails := fun _ => true, installFails := fun _ => true,
    newUid := fun _ => 42 }

def sBw0 : Bbr :=
  { sc_uid := 1, probe_rtt_interval := 10000000000, bottle_rate := 125000,
    bottle_rate_timeout := 100, min_rtt_us := 1000000, min_rtt_timeout := 100,
    curr_mode := .ProbeBw, mss := 1460, init := true, start := 0 }

def sBwRun0 : Bbr :=
  { sc_uid := 1, probe_rtt_interval := 10000000000, bottle_rate := 125000,
    bottle_rate_timeout := 100, min_rtt_us := 1000000, min_rtt_timeout := 100,
    curr_mode := .ProbeBw, mss := 1460, init := false, start := 0 }

def sBwLate : Bbr :=
  { sc_uid := 1, probe_rtt_interval := 10, bottle_rate := 125000,
    bottle_rate_timeout := 100, min_rtt_us := 5000, min_rtt_timeout := -1,
    curr_mode := .ProbeBw, mss := 1460, init := false, start := 0 }

def sRtt0 : Bbr :=
  { sc_uid := 1, probe_rtt_interval := 10000000000, bottle_rate := 125000,
    bottle_rate_timeout := 100, min_rtt_us := 0x3fffffff, min_rtt_timeout := 100,
    curr_mode := .ProbeRtt, mss := 1460, init := false, start := 0 }

def mStale0 : Report :=
  { program_uid := 2, minrtt := some 5000, loss := some 0, rate := some 250000,
    pulseState := some 1 }

def mRtt0 : Report :=
  { program_uid := 1, minrtt := some 5000, loss := none, rate := none,
    pulseState := none }

def mLate0 : Report :=
  { program_uid := 1, minrtt := some 6000, loss := some 0, rate := some 100,
    pulseState := some 1 }

def mLateFast : Report :=
  { program_uid := 1, minrtt := some 6000, loss := some 0, rate := some 250000,
    pulseState := some 1 }

def mNoRate0 : Report :=
  { program_uid := 1, minrtt := some 5000, loss := some 0, rate := none,
    pulseState := some 1 }

def mFresh0 : Report :=
  { program_uid := 1, minrtt := some 4000, loss := some 0, rate := some 100,
    pulseState := some 1 }

def mFast0 : Report :=
  { program_uid := 1, minrtt := some 2000000, loss := some 0, rate := some 250000,
    pulseState := some 1 }

def mFastPulse2 : Report :=
  { program_uid := 1, minrtt := some 2000000, loss := some 0, rate := some 250000,
    pulseState := some 2 }

def sNew0 : Bbr :=
  { sc_uid := 42, probe_rtt_interval := 10, bottle_rate := 125000,
    bottle_rate_timeout := 10, min_rtt_us := 1000000, min_rtt_timeout := 10,
    curr_mode := .ProbeBw, mss := 1460, init := true, start := 0 }

def c2trace : List RttTick :=
  [{ micros := 200001, rtt_sample_us := 5000, packets_in_flight := 4 }]

/-! Basic simp lemmas about the embedding. -/

@[simp] theorem Outcome.state_ok (s : Bbr) (tr : List Event) : (Outcome.ok s tr).state = s := rfl

@[simp] theorem Outcome.state_panic (s : Bbr) (tr : List Event) : (Outcome.panic s tr).state = s := rfl

@[simp] theorem Outcome.events_ok (s : Bbr) (tr : List Event) : (Outcome.ok s tr).events = tr := rfl

@[simp] theorem Outcome.events_panic (s : Bbr) (tr : List Event) : (Outcome.panic s tr).events = tr := rfl

@[simp] theorem Outcome.isPanic_ok (s : Bbr) (tr : List Event) : (Outcome.ok s tr).isPanic = false := rfl

@[simp] theorem Outcome.isPanic_panic (s : Bbr) (tr : List Event) : (Outcome.panic s tr).isPanic = true := rfl

@[simp] theorem callsOnly_nil : callsOnly [] = [] := rfl

@[simp] theorem callsOnly_append (a b : List Event) :
    callsOnly (a ++ b) = callsOnly a ++ callsOnly b := List.filter_append ..

@[simp] theorem callsOnly_cons_update (u : List (String × Nat)) (l : List Event) :
    callsOnly (Event.update u :: l) = Event.update u :: callsOnly l := rfl

@[simp] theorem callsOnly_cons_install (p : String) (cs : List (String × Nat)) (l : List Event) :
    callsOnly (Event.install p cs :: l) = Event.install p cs :: callsOnly l := rfl

@[simp] theorem callsOnly_cons_log (msg : String) (l : List Event) :
    callsOnly (Event.log msg :: l) = callsOnly l := rfl

@[simp] theorem callsOnly_install_update (e : Env) (upd : List (String × Nat)) :
    callsOnly (install_update e upd) = [Event.update upd] := by
  unfold install_update callsOnly
  split <;> rfl

@[simp] theorem callsOnly_install (p : String) (cs : List (String × Nat)) :
    callsOnly [Event.install p cs] = [Event.install p cs] := rfl

theorem install_update_no_install (e : Env) (upd : List (String × Nat))
    (p : String) (cs : List (String × Nat)) :
    Event.install p cs ∉ install_update e upd := by
  unfold install_update
  split <;> simp

theorem replace_probe_bw_rate_no_install (e : Env) (s : Bbr)
    (p : String) (cs : List (String × Nat)) :
    Event.install p cs ∉ replace_probe_bw_rate e s :=
  install_update_no_install e _ p cs

@[simp] theorem install_probe_bw_snd (e : Env) (s : Bbr) :
    (install_probe_bw e s).2 =
      if e.installFails "probe_bw" then none else some (e.newUid "probe_bw") := rfl

/-! Preservation lemmas for the min-RTT block. -/

@[simp] theorem probe_bw_minrtt_update_bottle_rate (e : Env) (s : Bbr) (mr : Nat) :
    ((probe_bw_minrtt_update e s mr).1).bottle_rate = s.bottle_rate := by
  simp only [probe_bw_minrtt_update]
  split
  · split <;> rfl
  · rfl

@[simp] theorem probe_bw_minrtt_update_init (e : Env) (s : Bbr) (mr : Nat) :
    ((probe_bw_minrtt_update e s mr).1).init = s.init := by
  simp only [probe_bw_minrtt_update]
  split
  · split <;> rfl
  · rfl

@[simp] theorem probe_bw_minrtt_update_sc_uid (e : Env) (s : Bbr) (mr : Nat) :
    ((probe_bw_minrtt_update e s mr).1).sc_uid = s.sc_uid := by
  simp only [probe_bw_minrtt_update]
  split
  · split <;> rfl
  · rfl

@[simp] theorem probe_bw_minrtt_update_mss (e : Env) (s : Bbr) (mr : Nat) :
    ((probe_bw_minrtt_update e s mr).1).mss = s.mss := by
  simp only [probe_bw_minrtt_update]
  split
  · split <;> rfl
  · rfl

@[simp] theorem probe_bw_minrtt_update_interval (e : Env) (s : Bbr) (mr : Nat) :
    ((probe_bw_minrtt_update e s mr).1).probe_rtt_interval = s.probe_rtt_interval := by
  simp only [probe_bw_minrtt_update]
  split
  · split <;> rfl
  · rfl

@[simp] theorem probe_bw_minrtt_update_curr_mode (e : Env) (s : Bbr) (mr : Nat) :
    ((probe_bw_minrtt_update e s mr).1).curr_mode = s.curr_mode := by
  simp only [probe_bw_minrtt_update]
  split
  · split <;> rfl
  · rfl

@[simp] theorem probe_bw_minrtt_update_bottle_rate_timeout (e : Env) (s : Bbr) (mr : Nat) :
    ((probe_bw_minrtt_update e s mr).1).bottle_rate_timeout = s.bottle_rate_timeout := by
  simp only [probe_bw_minrtt_update]
  split
  · split <;> rfl
  · rfl

theorem probe_bw_minrtt_update_min_rtt_le (e : Env) (s : Bbr) (mr : Nat) :
    ((probe_bw_minrtt_update e s mr).1).min_rtt_us ≤ s.min_rtt_us := by
  simp only [probe_bw_minrtt_update]
  split
  · rename_i h
    split <;> exact le_of_lt h
  · exact le_refl _

theorem probe_bw_minrtt_update_no_install (e : Env) (s : Bbr) (mr : Nat)
    (p : String) (cs : List (String × Nat)) :
    Event.install p cs ∉ (probe_bw_minrtt_update e s mr).2 := by
  simp only [probe_bw_minrtt_update]
  split
  · split
    · exact install_update_no_install e _ p cs
    · simp
  · simp

/-! Preservation lemmas for the rate-adoption block. -/

@[simp] theorem probe_bw_rate_update_min_rtt_us (e : Env) (s1 : Bbr) (rate : ℚ) :
    ((probe_bw_rate_update e s1 rate).1).min_rtt_us = s1.min_rtt_us := by
  simp only [probe_bw_rate_update]
  split
  · split <;> rfl
  · rfl

@[simp] theorem probe_bw_rate_update_min_rtt_timeout (e : Env) (s1 : Bbr) (rate : ℚ) :
    ((probe_bw_rate_update e s1 rate).1).min_rtt_timeout = s1.min_rtt_timeout := by
  simp only [probe_bw_rate_update]
  split
  · split <;> rfl
  · rfl

@[simp] theorem probe_bw_rate_update_init (e : Env) (s1 : Bbr) (rate : ℚ) :
    ((probe_bw_rate_update e s1 rate).1).init = s1.init := by
  simp only [probe_bw_rate_update]
  split
  · split <;> rfl
  · rfl

@[simp] theorem probe_bw_rate_update_sc_uid (e : Env) (s1 : Bbr) (rate : ℚ) :
    ((probe_bw_rate_update e s1 rate).1).sc_uid = s1.sc_uid := by
  simp only [probe_bw_rate_update]
  split
  · split <;> rfl
  · rfl

@[simp] theorem probe_bw_rate_update_curr_mode (e : Env) (s1 : Bbr) (rate : ℚ) :
    ((probe_bw_rate_update e s1 rate).1).curr_mode = s1.curr_mode := by
  simp only [probe_bw_rate_update]
  split
  · split <;> rfl
  · rfl

theorem probe_bw_rate_update_bottle_rate_le (e : Env) (s1 : Bbr) (rate : ℚ) :
    s1.bottle_rate ≤ ((probe_bw_rate_update e s1 rate).1).bottle_rate := by
  simp only [probe_bw_rate_update]
  split
  · rename_i h
    split <;> exact le_of_lt h
  · exact le_refl _

theorem probe_bw_rate_update_no_install (e : Env) (s1 : Bbr) (rate : ℚ)
    (p : String) (cs : List (String × Nat)) :
    Event.install p cs ∉ (probe_bw_rate_update e s1 rate).2 := by
  simp only [probe_bw_rate_update]
  split
  · split
    · exact replace_probe_bw_rate_no_install e _ p cs
    · simp
  · simp

theorem probe_bw_rate_update_of_ge (e : Env) (s1 : Bbr) (rate : ℚ)
    (h : ¬ s1.bottle_rate < rate) :
    probe_bw_rate_update e s1 rate = (s1, []) := by
  simp only [probe_bw_rate_update, if_neg h]

theorem probe_bw_rate_update_of_lt_run (e : Env) (s1 : Bbr) (rate : ℚ)
    (h : s1.bottle_rate < rate) (hinit : s1.init = false) :
    probe_bw_rate_update e s1 rate =
      ({ s1 with bottle_rate := rate,
                 bottle_rate_timeout := e.now + s1.probe_rtt_interval },
       replace_probe_bw_rate e
         { s1 with bottle_rate := rate,
                   bottle_rate_timeout := e.now + s1.probe_rtt_interval }) := by
  simp only [probe_bw_rate_update, if_pos h]
  simp [hinit]

theorem probe_bw_rate_update_of_lt_init (e : Env) (s1 : Bbr) (rate : ℚ)
    (h : s1.bottle_rate < rate) (hinit : s1.init = true) :
    probe_bw_rate_update e s1 rate =
      ({ s1 with bottle_rate := rate,
                 bottle_rate_timeout := e.now + s1.probe_rtt_interval }, []) := by
  simp only [probe_bw_rate_update, if_pos h]
  simp [hinit]

/-! Branch lemmas for the tail of the `ProbeBw` arm. -/

theorem probe_bw_tail_deadline_ok (e : Env) (s1 : Bbr) (tr1 : List Event) (rate : ℚ)
    (hdl : e.now > s1.min_rtt_timeout) (hok : e.installFails "probe_rtt" = false) :
    probe_bw_tail e s1 tr1 rate =
      .ok { s1 with curr_mode := .ProbeRtt, min_rtt_us := 0x3fffffff,
                    sc_uid := e.newUid "probe_rtt" }
         (tr1 ++ [Event.install "probe_rtt" []]
              ++ install_update e [("Cwnd", (4 * s1.mss) % 2 ^ 32)]) := by
  unfold probe_bw_tail
  rw [if_pos hdl]
  simp [hok]

theorem probe_bw_tail_deadline_panic (e : Env) (s1 : Bbr) (tr1 : List Event) (rate : ℚ)
    (hdl : e.now > s1.min_rtt_timeout) (hfail : e.installFails "probe_rtt" = true) :
    probe_bw_tail e s1 tr1 rate =
      .panic { s1 with curr_mode := .ProbeRtt, min_rtt_us := 0x3fffffff }
         (tr1 ++ [Event.install "probe_rtt" []]) := by
  unfold probe_bw_tail
  rw [if_pos hdl]
  simp [hfail]

theorem probe_bw_tail_no_deadline_run (e : Env) (s1 : Bbr) (tr1 : List Event) (rate : ℚ)
    (hdl : ¬ e.now > s1.min_rtt_timeout) (hinit : s1.init = false) :
    probe_bw_tail e s1 tr1 rate =
      .ok (probe_bw_rate_update e s1 rate).1
         (tr1 ++ (probe_bw_rate_update e s1 rate).2) := by
  unfold probe_bw_tail
  rw [if_neg hdl]
  simp only [probe_bw_rate_update_init, hinit, Bool.false_eq_true, if_false]

theorem probe_bw_tail_no_deadline_init (e : Env) (s1 : Bbr) (tr1 : List Event) (rate : ℚ)
    (hdl : ¬ e.now > s1.min_rtt_timeout) (hinit : s1.init = true)
    (hok : e.installFails "probe_bw" = false) :
    probe_bw_tail e s1 tr1 rate =
      .ok { (probe_bw_rate_update e s1 rate).1 with
              sc_uid := e.newUid "probe_bw", init := false }
         (tr1 ++ (probe_bw_rate_update e s1 rate).2
              ++ (install_probe_bw e (probe_bw_rate_update e s1 rate).1).1) := by
  unfold probe_bw_tail
  rw [if_neg hdl]
  simp only [probe_bw_rate_update_init, hinit, if_true, install_probe_bw_snd, hok,
             Bool.false_eq_true, if_false]

theorem probe_bw_tail_no_deadline_init_panic (e : Env) (s1 : Bbr) (tr1 : List Event) (rate : ℚ)
    (hdl : ¬ e.now > s1.min_rtt_timeout) (hinit : s1.init = true)
    (hfail : e.installFails "probe_bw" = true) :
    probe_bw_tail e s1 tr1 rate =
      .panic (probe_bw_rate_update e s1 rate).1
         (tr1 ++ (probe_bw_rate_update e s1 rate).2
              ++ (install_probe_bw e (probe_bw_rate_update e s1 rate).1).1) := by
  unfold probe_bw_tail
  rw [if_neg hdl]
  simp only [probe_bw_rate_update_init, hinit, if_true, install_probe_bw_snd, hfail]

theorem probe_bw_tail_min_rtt (e : Env) (s1 : Bbr) (tr1 : List Event) (rate : ℚ) :
    ((probe_bw_tail e s1 tr1 rate).state.min_rtt_us = s1.min_rtt_us
      ∧ (probe_bw_tail e s1 tr1 rate).state.curr_mode = s1.curr_mode)
    ∨ ((probe_bw_tail e s1 tr1 rate).state.min_rtt_us = 0x3fffffff
       ∧ (probe_bw_tail e s1 tr1 rate).state.curr_mode = BbrMode.ProbeRtt) := by
  unfold probe_bw_tail
  split
  · split
    · exact Or.inr ⟨rfl, rfl⟩
    · exact Or.inr ⟨rfl, rfl⟩
  · dsimp only
    split
    · split <;> exact Or.inl ⟨by simp, by simp⟩
    · exact Or.inl ⟨by simp, by simp⟩

theorem probe_bw_tail_bottle_rate_le (e : Env) (s1 : Bbr) (tr1 : List Event) (rate : ℚ) :
    s1.bottle_rate ≤ (probe_bw_tail e s1 tr1 rate).state.bottle_rate := by
  unfold probe_bw_tail
  split
  · split
    · simp
    · simp
  · dsimp only
    split
    · split <;> simpa using probe_bw_rate_update_bottle_rate_le e s1 rate
    · simpa using probe_bw_rate_update_bottle_rate_le e s1 rate

theorem probe_bw_tail_bottle_rate_changed (e : Env) (s1 : Bbr) (tr1 : List Event) (rate : ℚ)
    (h : (probe_bw_tail e s1 tr1 rate).state.bottle_rate ≠ s1.bottle_rate) :
    ¬ e.now > s1.min_rtt_timeout ∧ s1.bottle_rate < rate := by
  by_cases hdl : e.now > s1.min_rtt_timeout
  · exfalso
    unfold probe_bw_tail at h
    rw [if_pos hdl] at h
    revert h
    split <;> simp
  · refine ⟨hdl, ?_⟩
    by_cases hlt : s1.bottle_rate < rate
    · exact hlt
    · exfalso
      unfold probe_bw_tail at h
      rw [if_neg hdl] at h
      rw [probe_bw_rate_update_of_ge e s1 rate hlt] at h
      revert h
      dsimp only
      split
      · split <;> simp
      · simp

/-! Reduction lemmas for `on_report` itself. -/

theorem on_report_stale_eq (e : Env) (s : Bbr) (m : Report)
    (h : s.sc_uid ≠ m.program_uid) :
    on_report e s m = .ok s [] := by
  unfold on_report
  rw [if_pos h]

theorem on_report_probe_bw_none_eq (e : Env) (s : Bbr) (m : Report)
    (hacc : s.sc_uid = m.program_uid) (hmode : s.curr_mode = BbrMode.ProbeBw)
    (hg : get_probe_bw_fields m = none) :
    on_report e s m = .panic s [] := by
  unfold on_report
  rw [if_neg (by simp [hacc]), hmode, hg]

theorem on_report_probe_rtt_none_eq (e : Env) (s : Bbr) (m : Report)
    (hacc : s.sc_uid = m.program_uid) (hmode : s.curr_mode = BbrMode.ProbeRtt)
    (hg : get_probe_minrtt m = none) :
    on_report e s m = .panic s [] := by
  unfold on_report
  rw [if_neg (by simp [hacc]), hmode, hg]

theorem on_report_probe_bw_eq (e : Env) (s : Bbr) (m : Report)
    (l mr : Nat) (r : ℚ) (st : Nat)
    (hacc : s.sc_uid = m.program_uid) (hmode : s.curr_mode = BbrMode.ProbeBw)
    (hg : get_probe_bw_fields m = some (l, mr, r, st)) :
    on_report e s m =
      probe_bw_tail e (probe_bw_minrtt_update e s mr).1
        (probe_bw_minrtt_update e s mr).2 r := by
  unfold on_report
  rw [if_neg (by simp [hacc]), hmode, hg]

theorem on_report_probe_rtt_ok (e : Env) (s : Bbr) (m : Report) (mr : Nat)
    (hacc : s.sc_uid = m.program_uid) (hmode : s.curr_mode = BbrMode.ProbeRtt)
    (hg : get_probe_minrtt m = some mr) (hok : e.installFails "probe_bw" = false) :
    on_report e s m =
      .ok { s with min_rtt_us := mr,
                   min_rtt_timeout := e.now + s.probe_rtt_interval,
                   sc_uid := e.newUid "probe_bw", curr_mode := BbrMode.ProbeBw }
         (install_probe_bw e
           { s with min_rtt_us := mr,
                    min_rtt_timeout := e.now + s.probe_rtt_interval }).1 := by
  unfold on_report
  rw [if_neg (by simp [hacc]), hmode, hg]
  simp [hok]

theorem on_report_probe_rtt_panic (e : Env) (s : Bbr) (m : Report) (mr : Nat)
    (hacc : s.sc_uid = m.program_uid) (hmode : s.curr_mode = BbrMode.ProbeRtt)
    (hg : get_probe_minrtt m = some mr) (hfail : e.installFails "probe_bw" = true) :
    on_report e s m =
      .panic { s with min_rtt_us := mr,
                      min_rtt_timeout := e.now + s.probe_rtt_interval }
         (install_probe_bw e
           { s with min_rtt_us := mr,
                    min_rtt_timeout := e.now + s.probe_rtt_interval }).1 := by
  unfold on_report
  rw [if_neg (by simp [hacc]), hmode, hg]
  simp [hfail]

theorem f64ToU32_eq_of (q : ℚ) (n : Nat) (h : q = (n : ℚ)) (hlt : n < 2 ^ 32) :
    f64ToU32 q = n := by
  subst h
  unfold f64ToU32
  rw [if_neg (by simp)]
  have hf : ((n : ℚ)).floor = (n : ℤ) := by
    rw [Rat.floor_def']
    simp
  rw [hf]
  simp
  omega

/-! Claim theorems. -/

/-- C1: a report whose `program_uid` differs from the current scope's is
discarded: the state is returned unchanged and no runtime call or log entry
is issued. -/
theorem c1_stale_report_no_effect (e : Env) (s : Bbr) (m : Report)
    (h : s.sc_uid ≠ m.program_uid) :
    on_report e s m = .ok s [] :=
  on_report_stale_eq e s m h

theorem c1_stale_report_no_effect_witness :
    sBw0.sc_uid ≠ mStale0.program_uid ∧ on_report env0 sBw0 mStale0 = .ok sBw0 [] :=
  ⟨by decide, c1_stale_report_no_effect env0 sBw0 mStale0 (by decide)⟩

/-- C8: a missing required field (`Report.minrtt`, `Report.loss`,
`Report.rate`, or `Report.pulseState` in `ProbeBw`; `Report.minrtt` in
`ProbeRtt`) makes decoding panic: the handler stops with the state unchanged
and no call issued, instead of substituting a default value. -/
theorem c8_missing_field_fatal (e : Env) (s : Bbr) (m : Report)
    (hacc : s.sc_uid = m.program_uid)
    (h : (s.curr_mode = BbrMode.ProbeBw ∧
            (m.minrtt = none ∨ m.loss = none ∨ m.rate = none ∨ m.pulseState = none))
       ∨ (s.curr_mode = BbrMode.ProbeRtt ∧ m.minrtt = none)) :
    on_report e s m = .panic s [] := by
  rcases h with ⟨hm, hf⟩ | ⟨hm, hf⟩
  · refine on_report_probe_bw_none_eq e s m hacc hm ?_
    unfold get_probe_bw_fields
    rcases hf with h | h | h | h <;> rw [h] <;>
      cases m.minrtt <;> cases m.loss <;> cases m.rate <;> cases m.pulseState <;> rfl
  · refine on_report_probe_rtt_none_eq e s m hacc hm ?_
    unfold get_probe_minrtt
    rw [hf]
    rfl

theorem c8_missing_field_fatal_witness :
    sBw0.sc_uid = mNoRate0.program_uid ∧ mNoRate0.rate = none ∧
    on_report env0 sBw0 mNoRate0 = .panic sBw0 [] :=
  ⟨by decide, by decide,
   c8_missing_field_fatal env0 sBw0 mNoRate0 (by decide)
     (Or.inl ⟨by decide, Or.inr (Or.inr (Or.inl (by decide)))⟩)⟩

/-- C5: an accepted report in `ProbeRtt` mode sets `min_rtt_us` to the
decoded min-RTT, sets `min_rtt_timeout` to exactly `now + probe_rtt_interval`,
installs the `probe_bw` program (new scope uid), and switches the mode to
`ProbeBw`; moreover any normal return of `on_report` from a `ProbeRtt` state
either leaves the state unchanged (stale report) or lands in `ProbeBw`. -/
theorem c5_probe_rtt_exit_to_probe_bw (e : Env) (s : Bbr) (m : Report) (v : Nat)
    (hacc : s.sc_uid = m.program_uid) (hmode : s.curr_mode = BbrMode.ProbeRtt)
    (hmr : m.minrtt = some v) (hok : e.installFails "probe_bw" = false) :
    ((on_report e s m).isPanic = false
      ∧ (on_report e s m).state =
          { s with min_rtt_us := u64ToU32 v,
                   min_rtt_timeout := e.now + s.probe_rtt_interval,
                   sc_uid := e.newUid "probe_bw",
                   curr_mode := BbrMode.ProbeBw }
      ∧ callsOnly (on_report e s m).events =
          [Event.update
             [("Cwnd", f64ToU32 (s.bottle_rate * 2.0 * ((u64ToU32 v : Nat) : ℚ) / 1e6)),
              ("Rate", f64ToU32 (s.bottle_rate * 1.25))],
           Event.install "probe_bw"
             [("cwndCap", f64ToU32 (s.bottle_rate * 2.0 * ((u64ToU32 v : Nat) : ℚ) / 1e6)),
              ("bottleRate", f64ToU32 s.bottle_rate),
              ("threeFourthsRate", f64ToU32 (s.bottle_rate * 0.75)),
              ("fiveFourthsRate", f64ToU32 (s.bottle_rate * 1.25))]])
    ∧ (∀ e2 m2 s2 tr2, on_report e2 s m2 = .ok s2 tr2 →
         s2.curr_mode = BbrMode.ProbeBw ∨ s2 = s) := by
  constructor
  · have hget : get_probe_minrtt m = some (u64ToU32 v) := by
      simp [get_probe_minrtt, hmr]
    rw [on_report_probe_rtt_ok e s m (u64ToU32 v) hacc hmode hget hok]
    refine ⟨rfl, rfl, ?_⟩
    simp [install_probe_bw]
  · intro e2 m2 s2 tr2 h
    unfold on_report at h
    by_cases huid : s.sc_uid ≠ m2.program_uid
    · rw [if_pos huid] at h
      cases h
      exact Or.inr rfl
    · rw [if_neg huid, hmode] at h
      cases hg : get_probe_minrtt m2 with
      | none => rw [hg] at h; cases h
      | some mr =>
        rw [hg] at h
        simp only [] at h
        split at h
        · cases h
        · cases h
          exact Or.inl rfl

theorem c5_probe_rtt_exit_to_probe_bw_witness :
    sRtt0.sc_uid = mRtt0.program_uid ∧ sRtt0.curr_mode = BbrMode.ProbeRtt ∧
    mRtt0.minrtt = some 5000 ∧ env0.installFails "probe_bw" = false ∧
    (on_report env0 sRtt0 mRtt0).state =
      { sRtt0 with min_rtt_us := 5000, min_rtt_timeout := 10000000000,
                   sc_uid := 42, curr_mode := BbrMode.ProbeBw } :=
  ⟨by decide, by decide, by decide, rfl,
   ((c5_probe_rtt_exit_to_probe_bw env0 sRtt0 mRtt0 5000 (by decide) (by decide)
       (by decide) rfl).1.2.1).trans (by decide)⟩

/-- C4: an accepted `ProbeBw` report arriving past the (current)
`min_rtt_timeout` switches the mode to `ProbeRtt`, resets `min_rtt_us` to the
sentinel `0x3fff_ffff`, installs the `probe_rtt` program under a fresh scope
uid, pushes a window update of exactly `Cwnd = 4 * mss`, and returns without
adopting the reported rate or performing the first-entry install
(`bottle_rate` and `init` are untouched, no further call is issued). -/
theorem c4_deadline_forces_probe_rtt (e : Env) (s : Bbr) (m : Report)
    (mr l r st : Nat)
    (hacc : s.sc_uid = m.program_uid) (hmode : s.curr_mode = BbrMode.ProbeBw)
    (hmr : m.minrtt = some mr) (hl : m.loss = some l) (hr : m.rate = some r)
    (hst : m.pulseState = some st)
    (hdl : e.now > ((probe_bw_minrtt_update e s (u64ToU32 mr)).1).min_rtt_timeout)
    (hok : e.installFails "probe_rtt" = false)
    (hmss : 4 * s.mss < 2 ^ 32) :
    (on_report e s m).isPanic = false
    ∧ (on_report e s m).state =
        { (probe_bw_minrtt_update e s (u64ToU32 mr)).1 with
            curr_mode := BbrMode.ProbeRtt, min_rtt_us := 0x3fffffff,
            sc_uid := e.newUid "probe_rtt" }
    ∧ ((on_report e s m).state).bottle_rate = s.bottle_rate
    ∧ ((on_report e s m).state).init = s.init
    ∧ callsOnly (on_report e s m).events =
        callsOnly (probe_bw_minrtt_update e s (u64ToU32 mr)).2
          ++ [Event.install "probe_rtt" [], Event.update [("Cwnd", 4 * s.mss)]] := by
  have hget : get_probe_bw_fields m =
      some (u64ToU32 l, u64ToU32 mr, (r : ℚ), u64ToU32 st) := by
    simp [get_probe_bw_fields, hmr, hl, hr, hst]
  have hm : 4 * s.mss % 4294967296 = 4 * s.mss :=
    Nat.mod_eq_of_lt (by simpa using hmss)
  rw [on_report_probe_bw_eq e s m (u64ToU32 l) (u64ToU32 mr) (r : ℚ) (u64ToU32 st)
        hacc hmode hget,
      probe_bw_tail_deadline_ok e _ _ _ hdl hok]
  refine ⟨rfl, rfl, by simp, by simp, ?_⟩
  simp [hm]

theorem c4_deadline_forces_probe_rtt_witness :
    env0.now > ((probe_bw_minrtt_update env0 sBwLate (u64ToU32 6000)).1).min_rtt_timeout ∧
    4 * sBwLate.mss < 2 ^ 32 ∧
    (on_report env0 sBwLate mLate0).state =
      { sBwLate with curr_mode := BbrMode.ProbeRtt, min_rtt_us := 0x3fffffff,
                     sc_uid := 42 } ∧
    callsOnly (on_report env0 sBwLate mLate0).events =
      [Event.install "probe_rtt" [], Event.update [("Cwnd", 5840)]] := by
  have h := c4_deadline_forces_probe_rtt env0 sBwLate mLate0 6000 0 100 1
    (by decide) (by decide) (by decide) (by decide) (by decide) (by decide)
    (by decide) rfl (by decide)
  exact ⟨by decide, by decide, h.2.1.trans (by decide), h.2.2.2.2.trans (by decide)⟩

theorem probe_bw_rate_update_init_events (e : Env) (s1 : Bbr) (rate : ℚ)
    (hinit : s1.init = true) :
    (probe_bw_rate_update e s1 rate).2 = [] := by
  simp only [probe_bw_rate_update]
  split
  · simp [hinit]
  · rfl

/-- C7: from a `ProbeBw` state, `min_rtt_us` never increases except by the
`ProbeRtt` transition resetting it to the sentinel `0x3fff_ffff`; when an
accepted report carries a strictly smaller min-RTT sample (the configured
interval being positive, as validated at startup), the estimate becomes the
sample, `min_rtt_timeout` is extended to `now + probe_rtt_interval`, and —
exactly when the first `probe_bw` install is already done (`init = false`) —
an in-place update of the single constant
`cwndCap = bottle_rate * 2 * min_rtt_us / 1e6` is pushed on the same scope
with no program install. -/
theorem c7_min_rtt_monotone :
    (∀ e s m, s.curr_mode = BbrMode.ProbeBw →
       ((on_report e s m).state.min_rtt_us ≤ s.min_rtt_us
        ∨ ((on_report e s m).state.min_rtt_us = 0x3fffffff
           ∧ (on_report e s m).state.curr_mode = BbrMode.ProbeRtt)))
    ∧ (∀ e s m mr l r st, s.sc_uid = m.program_uid → s.curr_mode = BbrMode.ProbeBw →
         m.minrtt = some mr → m.loss = some l → m.rate = some r → m.pulseState = some st →
         u64ToU32 mr < s.min_rtt_us → 0 < s.probe_rtt_interval → s.init = false →
         (on_report e s m).state.min_rtt_us = u64ToU32 mr
         ∧ (on_report e s m).state.min_rtt_timeout = e.now + s.probe_rtt_interval
         ∧ (on_report e s m).state.sc_uid = s.sc_uid
         ∧ (∃ suffix, callsOnly (on_report e s m).events =
             Event.update [("cwndCap",
               f64ToU32 (s.bottle_rate * 2.0 * ((u64ToU32 mr : Nat) : ℚ) / 1e6))] :: suffix)
         ∧ (∀ p cs, Event.install p cs ∉ (on_report e s m).events))
    ∧ (∀ e s m mr l r st, s.sc_uid = m.program_uid → s.curr_mode = BbrMode.ProbeBw →
         m.minrtt = some mr → m.loss = some l → m.rate = some r → m.pulseState = some st →
         u64ToU32 mr < s.min_rtt_us → 0 < s.probe_rtt_interval → s.init = true →
         ∀ x, Event.update [("cwndCap", x)] ∉ callsOnly (on_report e s m).events) := by
  refine ⟨?_, ?_, ?_⟩
  · intro e s m hmode
    by_cases huid : s.sc_uid = m.program_uid
    · cases hg : get_probe_bw_fields m with
      | none =>
        rw [on_report_probe_bw_none_eq e s m huid hmode hg]
        exact Or.inl (le_refl _)
      | some q =>
        obtain ⟨l, mr, r, st⟩ := q
        rw [on_report_probe_bw_eq e s m l mr r st huid hmode hg]
        rcases probe_bw_tail_min_rtt e (probe_bw_minrtt_update e s mr).1
            (probe_bw_minrtt_update e s mr).2 r with ⟨h1, _⟩ | ⟨h1, h2⟩
        · refine Or.inl ?_
          rw [h1]
          exact probe_bw_minrtt_update_min_rtt_le e s mr
        · exact Or.inr ⟨h1, h2⟩
    · rw [on_report_stale_eq e s m huid]
      exact Or.inl (le_refl _)
  · intro e s m mr l r st hacc hmode hmr hl hr hst hlt hpos hinit
    have hget : get_probe_bw_fields m =
        some (u64ToU32 l, u64ToU32 mr, (r : ℚ), u64ToU32 st) := by
      simp [get_probe_bw_fields, hmr, hl, hr, hst]
    have hp1 : probe_bw_minrtt_update e s (u64ToU32 mr) =
        ({ s with min_rtt_us := u64ToU32 mr,
                  min_rtt_timeout := e.now + s.probe_rtt_interval },
         install_update e [("cwndCap",
           f64ToU32 (s.bottle_rate * 2.0 * ((u64ToU32 mr : Nat) : ℚ) / 1e6))]) := by
      simp only [probe_bw_minrtt_update, if_pos hlt]
      simp [hinit]
    have hnd : ¬ e.now > e.now + s.probe_rtt_interval := by omega
    rw [on_report_probe_bw_eq e s m (u64ToU32 l) (u64ToU32 mr) (r : ℚ) (u64ToU32 st)
          hacc hmode hget, hp1]
    rw [probe_bw_tail_no_deadline_run e _ _ _ hnd (by simp [hinit])]
    refine ⟨by simp, by simp, by simp, ?_, ?_⟩
    · refine ⟨callsOnly (probe_bw_rate_update e
          { s with min_rtt_us := u64ToU32 mr,
                   min_rtt_timeout := e.now + s.probe_rtt_interval } (r : ℚ)).2, ?_⟩
      simp
    · intro p cs hmem
      rw [Outcome.events_ok, List.mem_append] at hmem
      rcases hmem with hmem | hmem
      · exact install_update_no_install e _ p cs hmem
      · exact probe_bw_rate_update_no_install e _ (r : ℚ) p cs hmem
  · intro e s m mr l r st hacc hmode hmr hl hr hst hlt hpos hinit x
    have hget : get_probe_bw_fields m =
        some (u64ToU32 l, u64ToU32 mr, (r : ℚ), u64ToU32 st) := by
      simp [get_probe_bw_fields, hmr, hl, hr, hst]
    have hp1 : probe_bw_minrtt_update e s (u64ToU32 mr) =
        ({ s with min_rtt_us := u64ToU32 mr,
                  min_rtt_timeout := e.now + s.probe_rtt_interval },
         ([] : List Event)) := by
      simp only [probe_bw_minrtt_update, if_pos hlt]
      simp [hinit]
    have hnd : ¬ e.now > e.now + s.probe_rtt_interval := by omega
    rw [on_report_probe_bw_eq e s m (u64ToU32 l) (u64ToU32 mr) (r : ℚ) (u64ToU32 st)
          hacc hmode hget, hp1]
    by_cases hf : e.installFails "probe_bw" = true
    · rw [probe_bw_tail_no_deadline_init_panic e _ _ _ hnd (by simp [hinit]) hf,
          probe_bw_rate_update_init_events e _ (r : ℚ) (by simp [hinit])]
      simp [install_probe_bw]
    · rw [probe_bw_tail_no_deadline_init e _ _ _ hnd (by simp [hinit])
            (by simpa using hf),
          probe_bw_rate_update_init_events e _ (r : ℚ) (by simp [hinit])]
      simp [install_probe_bw]

theorem c7_min_rtt_monotone_witness :
    u64ToU32 4000 < sBwRun0.min_rtt_us ∧ 0 < sBwRun0.probe_rtt_interval ∧
    sBwRun0.init = false ∧
    (on_report env0 sBwRun0 mFresh0).state.min_rtt_us = 4000 ∧
    (on_report env0 sBwRun0 mFresh0).state.min_rtt_timeout = 10000000000 := by
  have h := c7_min_rtt_monotone.2.1 env0 sBwRun0 mFresh0 4000 0 100 1
    (by decide) (by decide) (by decide) (by decide) (by decide) (by decide)
    (by decide) (by decide) (by decide)
  exact ⟨by decide, by decide, by decide, h.1.trans (by decide), h.2.1.trans (by decide)⟩

/-- C6 counterexample: in `ProbeBw`, when the report arrives past
`min_rtt_timeout`, the handler transitions to `ProbeRtt` and returns before
the rate-adoption step, so a decoded rate strictly above the current
estimate does not raise `bottle_rate` — refuting "increases exactly when the
decoded rate exceeds the current estimate". -/
theorem c6_rate_exceeds_but_no_increase_cex :
    sBwLate.sc_uid = mLateFast.program_uid ∧
    sBwLate.curr_mode = BbrMode.ProbeBw ∧
    mLateFast.rate = some 250000 ∧
    sBwLate.bottle_rate < (250000 : ℚ) ∧
    (on_report env0 sBwLate mLateFast).state.bottle_rate = sBwLate.bottle_rate := by
  decide

/-- C6 (amended): `bottle_rate` is non-decreasing under every report; it
changes only on an accepted, fully decoded `ProbeBw` report that does not
trigger the `ProbeRtt` transition and whose decoded rate exceeds the current
estimate; and in that case the new estimate is the decoded rate, the
`bottle_rate_timeout` is extended to `now + probe_rtt_interval`, and — past
the first `probe_bw` install — the four pacing constants
`0.75R`, `R`, `1.25R`, `2*R*T/1e6` are pushed in one update. -/
theorem c6_bottleneck_rate_monotone :
    (∀ e s m, s.bottle_rate ≤ (on_report e s m).state.bottle_rate)
    ∧ (∀ e s m, (on_report e s m).state.bottle_rate ≠ s.bottle_rate →
         s.sc_uid = m.program_uid ∧ s.curr_mode = BbrMode.ProbeBw ∧
         ∃ l mr r st, get_probe_bw_fields m = some (l, mr, r, st) ∧
           ¬ e.now > ((probe_bw_minrtt_update e s mr).1).min_rtt_timeout ∧
           s.bottle_rate < r)
    ∧ (∀ e s m l mr st, ∀ r : ℚ, s.sc_uid = m.program_uid →
         s.curr_mode = BbrMode.ProbeBw →
         get_probe_bw_fields m = some (l, mr, r, st) →
         ¬ e.now > ((probe_bw_minrtt_update e s mr).1).min_rtt_timeout →
         s.bottle_rate < r →
         (on_report e s m).state.bottle_rate = r
         ∧ (on_report e s m).state.bottle_rate_timeout = e.now + s.probe_rtt_interval
         ∧ (s.init = false →
             callsOnly (on_report e s m).events =
               callsOnly (probe_bw_minrtt_update e s mr).2
                 ++ [Event.update
                      [("bottleRate", f64ToU32 r),
                       ("threeFourthsRate", f64ToU32 (r * 0.75)),
                       ("fiveFourthsRate", f64ToU32 (r * 1.25)),
                       ("cwndCap", f64ToU32 (r * 2.0 *
                          ((((probe_bw_minrtt_update e s mr).1).min_rtt_us : Nat) : ℚ) / 1e6))]])) := by
  refine ⟨?_, ?_, ?_⟩
  · intro e s m
    by_cases huid : s.sc_uid = m.program_uid
    · cases hm : s.curr_mode with
      | ProbeBw =>
        cases hg : get_probe_bw_fields m with
        | none =>
          rw [on_report_probe_bw_none_eq e s m huid hm hg]
          exact le_refl _
        | some q =>
          obtain ⟨l, mr, r, st⟩ := q
          rw [on_report_probe_bw_eq e s m l mr r st huid hm hg]
          have h2 := probe_bw_tail_bottle_rate_le e (probe_bw_minrtt_update e s mr).1
            (probe_bw_minrtt_update e s mr).2 r
          rw [probe_bw_minrtt_update_bottle_rate] at h2
          exact h2
      | ProbeRtt =>
        cases hg : get_probe_minrtt m with
        | none =>
          rw [on_report_probe_rtt_none_eq e s m huid hm hg]
          exact le_refl _
        | some mr =>
          by_cases hf : e.installFails "probe_bw" = true
          · rw [on_report_probe_rtt_panic e s m mr huid hm hg hf]
            simp
          · rw [on_report_probe_rtt_ok e s m mr huid hm hg (by simpa using hf)]
            simp
    · rw [on_report_stale_eq e s m huid]
      exact le_refl _
  · intro e s m h
    by_cases huid : s.sc_uid = m.program_uid
    · cases hm : s.curr_mode with
      | ProbeBw =>
        cases hg : get_probe_bw_fields m with
        | none =>
          rw [on_report_probe_bw_none_eq e s m huid hm hg] at h
          simp at h
        | some q =>
          obtain ⟨l, mr, r, st⟩ := q
          rw [on_report_probe_bw_eq e s m l mr r st huid hm hg] at h
          have h2 : (probe_bw_tail e (probe_bw_minrtt_update e s mr).1
              (probe_bw_minrtt_update e s mr).2 r).state.bottle_rate
              ≠ ((probe_bw_minrtt_update e s mr).1).bottle_rate := by
            rw [probe_bw_minrtt_update_bottle_rate]
            exact h
          obtain ⟨hdl, hlt⟩ := probe_bw_tail_bottle_rate_changed e _ _ _ h2
          rw [probe_bw_minrtt_update_bottle_rate] at hlt
          exact ⟨huid, rfl, l, mr, r, st, rfl, hdl, hlt⟩
      | ProbeRtt =>
        exfalso
        apply h
        cases hg : get_probe_minrtt m with
        | none => rw [on_report_probe_rtt_none_eq e s m huid hm hg]; rfl
        | some mr =>
          by_cases hf : e.installFails "probe_bw" = true
          · rw [on_report_probe_rtt_panic e s m mr huid hm hg hf]; simp
          · rw [on_report_probe_rtt_ok e s m mr huid hm hg (by simpa using hf)]; simp
    · exfalso
      apply h
      rw [on_report_stale_eq e s m huid]
      rfl
  · intro e s m l mr st r hacc hmode hg hnd hlt
    rw [on_report_probe_bw_eq e s m l mr r st hacc hmode hg]
    have hlt1 : ((probe_bw_minrtt_update e s mr).1).bottle_rate < r := by
      rw [probe_bw_minrtt_update_bottle_rate]
      exact hlt
    by_cases hinit : s.init = false
    · have hinit1 : ((probe_bw_minrtt_update e s mr).1).init = false := by
        simp [hinit]
      rw [probe_bw_tail_no_deadline_run e _ _ _ hnd hinit1,
          probe_bw_rate_update_of_lt_run e _ _ hlt1 hinit1]
      refine ⟨by simp, by simp, fun _ => ?_⟩
      simp [replace_probe_bw_rate]
    · have hinit' : s.init = true := by
        revert hinit
        cases s.init <;> simp
      have hinit1 : ((probe_bw_minrtt_update e s mr).1).init = true := by
        simp [hinit']
      by_cases hf : e.installFails "probe_bw" = true
      · rw [probe_bw_tail_no_deadline_init_panic e _ _ _ hnd hinit1 hf,
            probe_bw_rate_update_of_lt_init e _ _ hlt1 hinit1]
        exact ⟨by simp, by simp, fun hff => absurd hff (by simp [hinit'])⟩
      · rw [probe_bw_tail_no_deadline_init e _ _ _ hnd hinit1 (by simpa using hf),
            probe_bw_rate_update_of_lt_init e _ _ hlt1 hinit1]
        exact ⟨by simp, by simp, fun hff => absurd hff (by simp [hinit'])⟩

theorem c6_bottleneck_rate_monotone_witness :
    sBwRun0.sc_uid = mFast0.program_uid ∧
    sBwRun0.bottle_rate < (250000 : ℚ) ∧
    (on_report env0 sBwRun0 mFast0).state.bottle_rate = 250000 ∧
    (on_report env0 sBwRun0 mFast0).state.bottle_rate_timeout = 10000000000 ∧
    callsOnly (on_report env0 sBwRun0 mFast0).events =
      [Event.update [("bottleRate", 250000), ("threeFourthsRate", 187500),
                     ("fiveFourthsRate", 312500), ("cwndCap", 500000)]] := by
  have h := c6_bottleneck_rate_monotone.2.2 env0 sBwRun0 mFast0 0 2000000 1 250000
    (by decide) (by decide) (by decide) (by decide) (by decide)
  refine ⟨by decide, by decide, h.1, h.2.1.trans (by decide),
          (h.2.2 (by decide)).trans ?_⟩
  have hp : probe_bw_minrtt_update env0 sBwRun0 2000000 = (sBwRun0, []) := by
    unfold probe_bw_minrtt_update
    rw [if_neg (by decide)]
  rw [hp]
  show [Event.update
          [("bottleRate", f64ToU32 250000),
           ("threeFourthsRate", f64ToU32 (250000 * 0.75)),
           ("fiveFourthsRate", f64ToU32 (250000 * 1.25)),
           ("cwndCap", f64ToU32 (250000 * 2.0 * ((1000000 : Nat) : ℚ) / 1e6))]]
      = [Event.update [("bottleRate", 250000), ("threeFourthsRate", 187500),
                       ("fiveFourthsRate", 312500), ("cwndCap", 500000)]]
  rw [f64ToU32_eq_of (250000 : ℚ) 250000 (by norm_num) (by norm_num),
      f64ToU32_eq_of ((250000 : ℚ) * 0.75) 187500 (by norm_num) (by norm_num),
      f64ToU32_eq_of ((250000 : ℚ) * 1.25) 312500 (by norm_num) (by norm_num),
      f64ToU32_eq_of ((250000 : ℚ) * 2.0 * ((1000000 : Nat) : ℚ) / 1e6) 500000
        (by norm_num) (by norm_num)]

/-- C9: the controller's result never depends on the decoded `pulseState`
value: for any two reports that agree on `program_uid`, `minrtt`, `loss` and
`rate` and both carry some `pulseState`, `on_report` produces the same
outcome (same mode, estimates, deadlines, and install/update calls). -/
theorem c9_pulse_state_independence (e : Env) (s : Bbr) (m1 m2 : Report) (v w : Nat)
    (h0 : m1.program_uid = m2.program_uid) (h1 : m1.minrtt = m2.minrtt)
    (h2 : m1.loss = m2.loss) (h3 : m1.rate = m2.rate)
    (hp1 : m1.pulseState = some v) (hp2 : m2.pulseState = some w) :
    on_report e s m1 = on_report e s m2 := by
  unfold on_report
  rw [h0]
  split
  · rfl
  · cases hc : s.curr_mode with
    | ProbeRtt =>
      unfold get_probe_minrtt
      rw [h1]
    | ProbeBw =>
      unfold get_probe_bw_fields
      rw [h1, h2, h3, hp1, hp2]
      cases m2.minrtt <;> cases m2.loss <;> cases m2.rate <;> rfl

theorem c9_pulse_state_independence_witness :
    mFast0.pulseState = some 1 ∧ mFastPulse2.pulseState = some 2 ∧
    mFastPulse2.program_uid = mFast0.program_uid ∧
    mFastPulse2.minrtt = mFast0.minrtt ∧ mFastPulse2.loss = mFast0.loss ∧
    mFastPulse2.rate = mFast0.rate ∧
    on_report env0 sBwRun0 mFastPulse2 = on_report env0 sBwRun0 mFast0 :=
  ⟨rfl, rfl, rfl, rfl, rfl, rfl,
   c9_pulse_state_independence env0 sBwRun0 mFastPulse2 mFast0 2 1
     rfl rfl rfl rfl rfl rfl⟩

/-! Congruence over `updateFails`: the result of an `update_field` call
changes nothing but the warn log. -/

theorem probe_bw_minrtt_update_upd_state (e : Env) (u : List (String × Nat) → Bool)
    (s : Bbr) (mr : Nat) :
    (probe_bw_minrtt_update { e with updateFails := u } s mr).1
      = (probe_bw_minrtt_update e s mr).1 := by
  unfold probe_bw_minrtt_update
  dsimp only
  split_ifs <;> rfl

theorem probe_bw_minrtt_update_upd_calls (e : Env) (u : List (String × Nat) → Bool)
    (s : Bbr) (mr : Nat) :
    callsOnly (probe_bw_minrtt_update { e with updateFails := u } s mr).2
      = callsOnly (probe_bw_minrtt_update e s mr).2 := by
  unfold probe_bw_minrtt_update
  dsimp only
  split_ifs <;> simp

theorem probe_bw_rate_update_upd_state (e : Env) (u : List (String × Nat) → Bool)
    (s1 : Bbr) (rate : ℚ) :
    (probe_bw_rate_update { e with updateFails := u } s1 rate).1
      = (probe_bw_rate_update e s1 rate).1 := by
  unfold probe_bw_rate_update
  dsimp only
  split_ifs <;> rfl

theorem probe_bw_rate_update_upd_calls (e : Env) (u : List (String × Nat) → Bool)
    (s1 : Bbr) (rate : ℚ) :
    callsOnly (probe_bw_rate_update { e with updateFails := u } s1 rate).2
      = callsOnly (probe_bw_rate_update e s1 rate).2 := by
  unfold probe_bw_rate_update
  dsimp only
  split_ifs <;> simp [replace_probe_bw_rate]

theorem install_probe_bw_upd_calls (e : Env) (u : List (String × Nat) → Bool)
    (s : Bbr) :
    callsOnly (install_probe_bw { e with updateFails := u } s).1
      = callsOnly (install_probe_bw e s).1 := by
  simp [install_probe_bw]

theorem probe_bw_tail_upd (e : Env) (u : List (String × Nat) → Bool)
    (s1 : Bbr) (tr1 tr1' : List Event) (rate : ℚ)
    (htr : callsOnly tr1 = callsOnly tr1') :
    (probe_bw_tail { e with updateFails := u } s1 tr1 rate).state
        = (probe_bw_tail e s1 tr1' rate).state
    ∧ (probe_bw_tail { e with updateFails := u } s1 tr1 rate).isPanic
        = (probe_bw_tail e s1 tr1' rate).isPanic
    ∧ callsOnly (probe_bw_tail { e with updateFails := u } s1 tr1 rate).events
        = callsOnly (probe_bw_tail e s1 tr1' rate).events := by
  by_cases hdl : e.now > s1.min_rtt_timeout
  · by_cases hf : e.installFails "probe_rtt" = true
    · rw [probe_bw_tail_deadline_panic { e with updateFails := u } s1 tr1 rate hdl hf,
          probe_bw_tail_deadline_panic e s1 tr1' rate hdl hf]
      exact ⟨rfl, rfl, by simp [htr]⟩
    · rw [probe_bw_tail_deadline_ok { e with updateFails := u } s1 tr1 rate hdl
            (by simpa using hf),
          probe_bw_tail_deadline_ok e s1 tr1' rate hdl (by simpa using hf)]
      exact ⟨rfl, rfl, by simp [htr]⟩
  · by_cases hinit : s1.init = true
    · by_cases hf : e.installFails "probe_bw" = true
      · rw [probe_bw_tail_no_deadline_init_panic { e with updateFails := u } s1 tr1 rate
              hdl hinit hf,
            probe_bw_tail_no_deadline_init_panic e s1 tr1' rate hdl hinit hf,
            probe_bw_rate_update_upd_state e u s1 rate]
        exact ⟨rfl, rfl,
          by simp [htr, probe_bw_rate_update_upd_calls, install_probe_bw_upd_calls]⟩
      · rw [probe_bw_tail_no_deadline_init { e with updateFails := u } s1 tr1 rate
              hdl hinit (by simpa using hf),
            probe_bw_tail_no_deadline_init e s1 tr1' rate hdl hinit (by simpa using hf),
            probe_bw_rate_update_upd_state e u s1 rate]
        exact ⟨rfl, rfl,
          by simp [htr, probe_bw_rate_update_upd_calls, install_probe_bw_upd_calls]⟩
    · have hinit' : s1.init = false := by
        revert hinit
        cases s1.init <;> simp
      rw [probe_bw_tail_no_deadline_run { e with updateFails := u } s1 tr1 rate hdl hinit',
          probe_bw_tail_no_deadline_run e s1 tr1' rate hdl hinit',
          probe_bw_rate_update_upd_state e u s1 rate]
      exact ⟨rfl, rfl, by simp [htr, probe_bw_rate_update_upd_calls]⟩

/-- C3 counterexample: the claim extends absorbed-failure behaviour to the
`set_program` (install) path, but the source `.unwrap()`s `set_program`
results, so a transport failure there panics the flow handler. -/
theorem c3_set_program_failure_panics_cex :
    envDown.installFails "probe_bw" = true ∧
    sRtt0.sc_uid = mRtt0.program_uid ∧
    (on_report envDown sRtt0 mRtt0).isPanic = true := by
  decide

/-- C3 (amended): a failing `update_field` call is absorbed — the resulting
state, panic status and runtime calls are identical whatever the
`update_field` transport outcomes are, only the warn log differs; a failing
`set_program` call, by contrast, panics (it is `.unwrap()`ed), shown here on
the `ProbeRtt` exit path. -/
theorem c3_transport_failure_handling :
    (∀ e u s m,
       (on_report { e with updateFails := u } s m).state = (on_report e s m).state
       ∧ (on_report { e with updateFails := u } s m).isPanic = (on_report e s m).isPanic
       ∧ callsOnly (on_report { e with updateFails := u } s m).events
           = callsOnly (on_report e s m).events)
    ∧ (∀ e s m v, s.sc_uid = m.program_uid → s.curr_mode = BbrMode.ProbeRtt →
         m.minrtt = some v → e.installFails "probe_bw" = true →
         (on_report e s m).isPanic = true) := by
  constructor
  · intro e u s m
    by_cases huid : s.sc_uid = m.program_uid
    · cases hm : s.curr_mode with
      | ProbeBw =>
        cases hg : get_probe_bw_fields m with
        | none =>
          rw [on_report_probe_bw_none_eq { e with updateFails := u } s m huid hm hg,
              on_report_probe_bw_none_eq e s m huid hm hg]
          exact ⟨rfl, rfl, rfl⟩
        | some q =>
          obtain ⟨l, mr, r, st⟩ := q
          rw [on_report_probe_bw_eq { e with updateFails := u } s m l mr r st huid hm hg,
              on_report_probe_bw_eq e s m l mr r st huid hm hg,
              probe_bw_minrtt_update_upd_state e u s mr]
          exact probe_bw_tail_upd e u (probe_bw_minrtt_update e s mr).1
            (probe_bw_minrtt_update { e with updateFails := u } s mr).2
            (probe_bw_minrtt_update e s mr).2 r
            (probe_bw_minrtt_update_upd_calls e u s mr)
      | ProbeRtt =>
        cases hg : get_probe_minrtt m with
        | none =>
          rw [on_report_probe_rtt_none_eq { e with updateFails := u } s m huid hm hg,
              on_report_probe_rtt_none_eq e s m huid hm hg]
          exact ⟨rfl, rfl, rfl⟩
        | some mr =>
          by_cases hf : e.installFails "probe_bw" = true
          · rw [on_report_probe_rtt_panic { e with updateFails := u } s m mr huid hm hg hf,
                on_report_probe_rtt_panic e s m mr huid hm hg hf]
            exact ⟨rfl, rfl, install_probe_bw_upd_calls e u _⟩
          · rw [on_report_probe_rtt_ok { e with updateFails := u } s m mr huid hm hg
                  (by simpa using hf),
                on_report_probe_rtt_ok e s m mr huid hm hg (by simpa using hf)]
            exact ⟨rfl, rfl, install_probe_bw_upd_calls e u _⟩
    · rw [on_report_stale_eq { e with updateFails := u } s m huid,
          on_report_stale_eq e s m huid]
      exact ⟨rfl, rfl, rfl⟩
  · intro e s m v hacc hmode hmr hf
    have hg : get_probe_minrtt m = some (u64ToU32 v) := by
      simp [get_probe_minrtt, hmr]
    rw [on_report_probe_rtt_panic e s m (u64ToU32 v) hacc hmode hg hf]
    rfl

theorem c3_transport_failure_handling_witness :
    (on_report { env0 with updateFails := fun _ => true } sBwRun0 mFresh0).state
        = (on_report env0 sBwRun0 mFresh0).state ∧
    envDown.installFails "probe_bw" = true ∧
    (on_report envDown sRtt0 mRtt0).isPanic = true :=
  ⟨(c3_transport_failure_handling.1 env0 (fun _ => true) sBwRun0 mFresh0).1,
   rfl,
   c3_transport_failure_handling.2 envDown sRtt0 mRtt0 5000
     (by decide) (by decide) (by decide) rfl⟩

theorem Bbr.mode_cases (s : Bbr) :
    s.curr_mode = BbrMode.ProbeBw ∨ s.curr_mode = BbrMode.ProbeRtt := by
  cases h : s.curr_mode
  · exact Or.inl rfl
  · exact Or.inr rfl

/-! Congruence over `bottle_rate_timeout`: no operation reads it. -/

theorem probe_bw_minrtt_update_brt_state (e : Env) (s : Bbr) (t : Int) (mr : Nat) :
    (probe_bw_minrtt_update e { s with bottle_rate_timeout := t } mr).1
      = { (probe_bw_minrtt_update e s mr).1 with bottle_rate_timeout := t } := by
  unfold probe_bw_minrtt_update
  dsimp only
  split_ifs <;> rfl

theorem probe_bw_minrtt_update_brt_calls (e : Env) (s : Bbr) (t : Int) (mr : Nat) :
    (probe_bw_minrtt_update e { s with bottle_rate_timeout := t } mr).2
      = (probe_bw_minrtt_update e s mr).2 := by
  unfold probe_bw_minrtt_update
  dsimp only
  split_ifs <;> rfl

theorem install_probe_bw_brt (e : Env) (s : Bbr) (t : Int) :
    (install_probe_bw e { s with bottle_rate_timeout := t }).1
      = (install_probe_bw e s).1 := by
  unfold install_probe_bw
  dsimp only

theorem probe_bw_rate_update_brt_cases (e : Env) (s1 : Bbr) (t : Int) (rate : ℚ) :
    (probe_bw_rate_update e { s1 with bottle_rate_timeout := t } rate).1
        = (probe_bw_rate_update e s1 rate).1
    ∨ (probe_bw_rate_update e { s1 with bottle_rate_timeout := t } rate).1
        = { (probe_bw_rate_update e s1 rate).1 with bottle_rate_timeout := t } := by
  unfold probe_bw_rate_update
  dsimp only
  split_ifs
  · exact Or.inl rfl
  · exact Or.inl rfl
  · exact Or.inr rfl

theorem probe_bw_rate_update_brt_calls (e : Env) (s1 : Bbr) (t : Int) (rate : ℚ) :
    (probe_bw_rate_update e { s1 with bottle_rate_timeout := t } rate).2
      = (probe_bw_rate_update e s1 rate).2 := by
  unfold probe_bw_rate_update
  dsimp only
  split_ifs <;> rfl

theorem probe_bw_tail_brt (e : Env) (s1 : Bbr) (t : Int) (tr1 : List Event) (rate : ℚ) :
    eraseBrtOutcome (probe_bw_tail e { s1 with bottle_rate_timeout := t } tr1 rate)
      = eraseBrtOutcome (probe_bw_tail e s1 tr1 rate) := by
  by_cases hdl : e.now > s1.min_rtt_timeout
  · by_cases hf : e.installFails "probe_rtt" = true
    · rw [probe_bw_tail_deadline_panic e { s1 with bottle_rate_timeout := t } tr1 rate hdl hf,
          probe_bw_tail_deadline_panic e s1 tr1 rate hdl hf]
      rfl
    · rw [probe_bw_tail_deadline_ok e { s1 with bottle_rate_timeout := t } tr1 rate hdl
            (by simpa using hf),
          probe_bw_tail_deadline_ok e s1 tr1 rate hdl (by simpa using hf)]
      rfl
  · by_cases hinit : s1.init = true
    · by_cases hf : e.installFails "probe_bw" = true
      · rw [probe_bw_tail_no_deadline_init_panic e { s1 with bottle_rate_timeout := t }
              tr1 rate hdl hinit hf,
            probe_bw_tail_no_deadline_init_panic e s1 tr1 rate hdl hinit hf,
            probe_bw_rate_update_brt_calls]
        rcases probe_bw_rate_update_brt_cases e s1 t rate with h | h
        · rw [h]
        · rw [h]
          exact rfl
      · rw [probe_bw_tail_no_deadline_init e { s1 with bottle_rate_timeout := t }
              tr1 rate hdl hinit (by simpa using hf),
            probe_bw_tail_no_deadline_init e s1 tr1 rate hdl hinit (by simpa using hf),
            probe_bw_rate_update_brt_calls]
        rcases probe_bw_rate_update_brt_cases e s1 t rate with h | h
        · rw [h]
        · rw [h]
          exact rfl
    · have hinit' : s1.init = false := by
        revert hinit
        cases s1.init <;> simp
      rw [probe_bw_tail_no_deadline_run e { s1 with bottle_rate_timeout := t }
            tr1 rate hdl hinit',
          probe_bw_tail_no_deadline_run e s1 tr1 rate hdl hinit',
          probe_bw_rate_update_brt_calls]
      rcases probe_bw_rate_update_brt_cases e s1 t rate with h | h
      · rw [h]
      · rw [h]
        exact rfl

/-- C10: `bottle_rate_timeout` (the spec's `bottleneck_rate_deadline`) is
written at flow creation and on rate adoption but never read: changing it in
the pre-state changes nothing in `on_report`'s outcome except the stored
field itself (same mode, estimates, `min_rtt_timeout`, calls, panic
status); and `new_flow` initialises it to `now + probe_rtt_interval`. -/
theorem c10_bottle_rate_timeout_never_read :
    (∀ e s t m,
       eraseBrtOutcome (on_report e { s with bottle_rate_timeout := t } m)
         = eraseBrtOutcome (on_report e s m))
    ∧ (∀ cfg e info s tr, new_flow cfg e info = some (s, tr) →
         s.bottle_rate_timeout = e.now + cfg.probe_rtt_interval) := by
  constructor
  · intro e s t m
    by_cases huid : s.sc_uid = m.program_uid
    · rcases Bbr.mode_cases s with hm | hm
      · cases hg : get_probe_bw_fields m with
        | none =>
          rw [on_report_probe_bw_none_eq e { s with bottle_rate_timeout := t } m huid hm hg,
              on_report_probe_bw_none_eq e s m huid hm hg]
          rfl
        | some q =>
          obtain ⟨l, mr, r, st⟩ := q
          rw [on_report_probe_bw_eq e { s with bottle_rate_timeout := t } m l mr r st
                huid hm hg,
              on_report_probe_bw_eq e s m l mr r st huid hm hg,
              probe_bw_minrtt_update_brt_state, probe_bw_minrtt_update_brt_calls]
          exact probe_bw_tail_brt e (probe_bw_minrtt_update e s mr).1 t
            (probe_bw_minrtt_update e s mr).2 r
      · cases hg : get_probe_minrtt m with
        | none =>
          rw [on_report_probe_rtt_none_eq e { s with bottle_rate_timeout := t } m huid hm hg,
              on_report_probe_rtt_none_eq e s m huid hm hg]
          rfl
        | some mr =>
          by_cases hf : e.installFails "probe_bw" = true
          · rw [on_report_probe_rtt_panic e { s with bottle_rate_timeout := t } m mr
                  huid hm hg hf,
                on_report_probe_rtt_panic e s m mr huid hm hg hf]
            rfl
          · rw [on_report_probe_rtt_ok e { s with bottle_rate_timeout := t } m mr
                  huid hm hg (by simpa using hf),
                on_report_probe_rtt_ok e s m mr huid hm hg (by simpa using hf)]
            rfl
    · rw [on_report_stale_eq e { s with bottle_rate_timeout := t } m huid,
          on_report_stale_eq e s m huid]
      rfl
  · intro cfg e info s tr h
    unfold new_flow at h
    split at h
    · cases h
    · cases h
      rfl

theorem c10_bottle_rate_timeout_never_read_witness :
    eraseBrtOutcome (on_report env0 { sBwRun0 with bottle_rate_timeout := 777 } mFresh0)
        = eraseBrtOutcome (on_report env0 sBwRun0 mFresh0) ∧
    new_flow { probe_rtt_interval := 10 } env0 { mss := 1460, init_cwnd := 14600 }
        = some (sNew0, [Event.install "init_program" [("Cwnd", 14600)]]) ∧
    sNew0.bottle_rate_timeout = env0.now + (10 : Int) :=
  ⟨c10_bottle_rate_timeout_never_read.1 env0 sBwRun0 777 mFresh0,
   by decide,
   c10_bottle_rate_timeout_never_read.2 { probe_rtt_interval := 10 } env0
     { mss := 1460, init_cwnd := 14600 } sNew0
     [Event.install "init_program" [("Cwnd", 14600)]] (by decide)⟩

/-- C2 counterexample: the `probe_rtt` program of the source emits its report
at the very first tick where more than 200 ms have elapsed and in-flight is
at most 4 packets — here a single tick with `Micros = 200001` and 4 packets
in flight — so no tick with in-flight ≤ 4 precedes the report, refuting the
latch-then-wait-one-more-RTT part of the claim. -/
theorem c2_latch_rule_counterexample :
    reportsAt c2trace 0 = true ∧
    ¬ (∃ j, j < 0 ∧ ∃ u, c2trace[j]? = some u ∧ u.packets_in_flight ≤ 4) :=
  ⟨by decide, fun ⟨j, hj, _⟩ => absurd hj (Nat.not_lt_zero j)⟩

/-- C2 (amended): the `probe_rtt` program implements the simpler exit rule:
a report is emitted at exactly the ticks where more than 200000 µs have
elapsed and in-flight is at most 4 packets, with no extra-RTT latch
requirement (in particular it never reports at or before 200 ms). -/
theorem c2_probe_rtt_exit_simple (tr : List RttTick) (i : Nat) (t : RttTick)
    (h : tr[i]? = some t) :
    reportsAt tr i = true ↔ (200000 < t.micros ∧ t.packets_in_flight ≤ 4) := by
  unfold reportsAt
  rw [h]
  simp only [probe_rtt_tick, decide_eq_true_eq]
  omega

theorem c2_probe_rtt_exit_simple_witness :
    c2trace[0]? = some ⟨200001, 5000, 4⟩ ∧
    (reportsAt c2trace 0 = true ↔ (200000 < 200001 ∧ 4 ≤ 4)) :=
  ⟨by decide, c2_probe_rtt_exit_simple c2trace 0 ⟨200001, 5000, 4⟩ (by decide)⟩
